import Mathlib

/-!
Shallow embedding of the botronka companion-robot runtime core:
the shared arbitration store (`src/core/state.py`), the bus dispatcher
(`src/threads/threadManager.py`), and the motion control engine
(`src/threads/motion.py`).  Wall-clock / monotonic times and all numeric
payload values are modelled as rationals; Python floats carry no claim-relevant
rounding here.  Payload strings are modelled after `json.loads`: either a
parse failure or a JSON value.
-/

namespace Botronka

/-- A JSON value as produced by Python's `json.loads`. -/
inductive JsonVal where
  | null
  | bool (b : Bool)
  | num (q : ℚ)
  | str (s : String)
  | arr (elems : List JsonVal)
  | obj (fields : List (String × JsonVal))

/-- Result of `json.loads(msg.content)`: the raw content string either fails to
parse or yields a JSON value. -/
inductive PContent where
  | malformed
  | json (v : JsonVal)

/-- Python truthiness (`bool(v)`) of a JSON-decoded value. -/
def pyTruthy : JsonVal → Bool
  | .null => false
  | .bool b => b
  | .num q => decide (q ≠ 0)
  | .str s => !s.isEmpty
  | .arr l => !l.isEmpty
  | .obj l => !l.isEmpty

/-- Python `isinstance(v, (float, int))` on a JSON-decoded value.  A JSON
boolean decodes to Python `bool`, which is a subclass of `int`. -/
def pyIsNumber : JsonVal → Bool
  | .num _ => true
  | .bool _ => true
  | _ => false

/-- Python `float(v)` on a value for which `pyIsNumber` holds. -/
def pyNumVal : JsonVal → ℚ
  | .num q => q
  | .bool b => if b then 1 else 0
  | _ => 0

/-- ASCII whitespace recognised by Python's `str.strip` and `float` parsing
(claim-relevant inputs are ASCII). -/
def isSpaceChar (c : Char) : Bool :=
  c = ' ' || c = '\t' || c = '\n' || c = '\r' || c = Char.ofNat 11 || c = Char.ofNat 12

def isDigitChar (c : Char) : Bool :=
  '0' ≤ c && c ≤ '9'

def digitVal (c : Char) : ℕ := c.toNat - '0'.toNat

def natOfDigits (l : List Char) : ℕ :=
  l.foldl (fun acc c => acc * 10 + digitVal c) 0

/-- Numeric value of `intPart.fracPart`. -/
def decimalVal (intPart fracPart : List Char) : ℚ :=
  (natOfDigits intPart : ℚ) + (natOfDigits fracPart : ℚ) / (10 : ℚ) ^ fracPart.length

/-- Python `float(s)` on a plain decimal literal with optional sign and
optional fractional part (the only string forms any claim touches;
exponent, underscore and inf/nan forms are not modelled). -/
def pyFloatOfChars (l : List Char) : Option ℚ :=
  let l := (l.dropWhile isSpaceChar).reverse.dropWhile isSpaceChar |>.reverse
  let (sign, l) :=
    match l with
    | '-' :: rest => ((-1 : ℚ), rest)
    | '+' :: rest => ((1 : ℚ), rest)
    | _ => ((1 : ℚ), l)
  let intPart := l.takeWhile isDigitChar
  let rest := l.drop intPart.length
  match rest with
  | [] => if intPart.isEmpty then none else some (sign * (natOfDigits intPart : ℚ))
  | '.' :: frac =>
      if frac.all isDigitChar && !(intPart.isEmpty && frac.isEmpty) then
        some (sign * decimalVal intPart frac)
      else none
  | _ => none

/-- Python `float(v)` on a JSON-decoded value; `none` models a raised
`TypeError`/`ValueError`. -/
def pyFloat : JsonVal → Option ℚ
  | .num q => some q
  | .bool b => some (if b then 1 else 0)
  | .str s => pyFloatOfChars s.data
  | _ => none

/-- Python `str(v)` on a JSON-decoded value.  String values render as
themselves — the only case whose text any store query observes; the
renderings of the remaining cases stand in for Python's textual forms and
never coincide with a trust-level name, which is all the store compares
them against. -/
def pyStr : JsonVal → String
  | .str s => s
  | .bool true => "True"
  | .bool false => "False"
  | .null => "None"
  | .num q => toString q
  | .arr _ => "[...]"
  | .obj _ => "{...}"

def upperAscii (s : String) : String :=
  ⟨s.data.map Char.toUpper⟩

def stripChars (l : List Char) : List Char :=
  (l.dropWhile isSpaceChar).reverse.dropWhile isSpaceChar |>.reverse

def pyStrip (s : String) : String :=
  ⟨stripChars s.data⟩

/-- `payload.get(key)` on a JSON object (`json.loads` yields distinct keys). -/
def jsonLookup (fields : List (String × JsonVal)) (key : String) : Option JsonVal :=
  (fields.find? (fun p => p.1 == key)).map (fun p => p.2)

/-- `payload.get(key, dflt)`. -/
def jsonLookupD (fields : List (String × JsonVal)) (key : String) (dflt : JsonVal) : JsonVal :=
  (jsonLookup fields key).getD dflt

/-- The decoded payload when it is a JSON object; `none` models either a
`json.loads` failure or a decoded non-object value, on which the handlers'
`payload.get(...)` raises and the surrounding `except` clause fires. -/
def asObj : PContent → Option (List (String × JsonVal))
  | .json (.obj fields) => some fields
  | _ => none

/-- `src/core/message.py` `Message`, with the content string replaced by its
`json.loads` outcome. -/
structure Message where
  sender : String
  type : String
  content : PContent
  sent_at : ℚ

inductive TrustLevel where
  | UNKNOWN | GUEST | FRIEND | OWNER
deriving DecidableEq

inductive AudioMode where
  | IDLE | ENGAGED | LISTENING | THINKING | SPEAKING
deriving DecidableEq

/-- `src/core/state.py` `AudioRuntimeState`. -/
structure AudioRuntimeState where
  mode : AudioMode := .IDLE
  mic_muted : Bool := false
  tts_playing : Bool := false
  llm_thinking : Bool := false
  robot_moving : Bool := false
  buzzer_active : Bool := false
  last_utterance_wav : Option JsonVal := none
  last_user_text : String := ""
  last_reply_text : String := ""
  last_command : Option String := none
  wake_override_until_monotonic : ℚ := 0

/-- `src/core/state.py` `SharedRuntimeState`. -/
structure SharedRuntimeState where
  face_present : Bool := false
  trust : TrustLevel := .UNKNOWN
  distance_cm : Option ℚ := none
  audio : AudioRuntimeState := {}

/-- The store state constructed by `RuntimeStateStore.__init__`. -/
def initState : SharedRuntimeState := {}

/-- `RuntimeStateStore._wake_active_unlocked`, with `time.monotonic()` passed
in as `now`. -/
def wake_active (s : SharedRuntimeState) (now : ℚ) : Bool :=
  decide (now < s.audio.wake_override_until_monotonic)

/-- `str(payload.get("trust_level", "UNKNOWN")).upper()` looked up in the
trust mapping of the `vision_identity` branch. -/
def trustOfPayload (v : JsonVal) : TrustLevel :=
  let t := upperAscii (pyStr v)
  if t = "OWNER" then .OWNER
  else if t = "FRIEND" then .FRIEND
  else if t = "GUEST" then .GUEST
  else .UNKNOWN

/-- Wake duration decoded by the `audio_wake_detected` branch:
`float(json.loads(content).get("duration_s", 10.0))` with every raised
exception yielding the default `10.0`. -/
def wakeDuration (c : PContent) : ℚ :=
  match asObj c with
  | none => 10
  | some fields =>
      match jsonLookup fields "duration_s" with
      | none => 10
      | some v => (pyFloat v).getD 10

/-- `RuntimeStateStore.can_open_mic`, returning the result together with the
(possibly self-corrected) store state; `time.monotonic()` is `now`. -/
def can_open_mic (s : SharedRuntimeState) (now : ℚ) : Bool × SharedRuntimeState :=
  let wakeA := wake_active s now
  let s' :=
    if !wakeA && !s.face_present && s.audio.mode == .ENGAGED
        && !s.audio.tts_playing && !s.audio.llm_thinking then
      { s with audio := { s.audio with mode := .IDLE } }
    else s
  (((s'.face_present || wakeA)
      && !s'.audio.mic_muted
      && !s'.audio.tts_playing
      && !s'.audio.robot_moving
      && !s'.audio.buzzer_active
      && (s'.audio.mode == .ENGAGED || s'.audio.mode == .IDLE)), s')

/-- `RuntimeStateStore.apply_message`; `time.monotonic()` is `now`. -/
def apply_message (s : SharedRuntimeState) (msg : Message) (now : ℚ) : SharedRuntimeState :=
  if msg.type = "distance_cm" then
    match asObj msg.content with
    | none => s
    | some fields =>
        match jsonLookup fields "value" with
        | some v => if pyIsNumber v then { s with distance_cm := some (pyNumVal v) } else s
        | none => s
  else if msg.type = "vision_identity" then
    match asObj msg.content with
    | none => s
    | some fields =>
        let face := pyTruthy (jsonLookupD fields "face_detected" (.bool false))
        let trust := trustOfPayload (jsonLookupD fields "trust_level" (.str "UNKNOWN"))
        let s := { s with face_present := face, trust := trust }
        if face then
          if s.audio.mode = .IDLE then
            { s with audio := { s.audio with mode := .ENGAGED } }
          else s
        else if s.audio.mode ≠ .SPEAKING then
          { s with audio :=
            { s.audio with mode := if wake_active s now then .ENGAGED else .IDLE } }
        else s
  else if msg.type = "audio_listening_started" then
    { s with audio := { s.audio with mode := .LISTENING } }
  else if msg.type = "audio_listening_finished" then
    { s with audio :=
      { s.audio with mode :=
          if s.face_present || wake_active s now then .ENGAGED else .IDLE } }
  else if msg.type = "audio_utterance" then
    match asObj msg.content with
    | none => s
    | some fields =>
        { s with audio := { s.audio with last_utterance_wav := jsonLookup fields "wav_path" } }
  else if msg.type = "stt_text" then
    match asObj msg.content with
    | none => s
    | some fields =>
        { s with audio :=
          { s.audio with
              last_user_text := pyStrip (pyStr (jsonLookupD fields "text" (.str "")))
              mode := .THINKING } }
  else if msg.type = "llm_thinking" then
    match asObj msg.content with
    | none => { s with audio := { s.audio with llm_thinking := false } }
    | some fields =>
        { s with audio :=
          { s.audio with llm_thinking := pyTruthy (jsonLookupD fields "value" (.bool false)) } }
  else if msg.type = "agent_reply" then
    match asObj msg.content with
    | none => s
    | some fields =>
        { s with audio :=
          { s.audio with
              last_reply_text := pyStrip (pyStr (jsonLookupD fields "speak" (.str "")))
              last_command :=
                match jsonLookup fields "command" with
                | some v => if pyTruthy v then some (pyStr v) else none
                | none => none } }
  else if msg.type = "tts_started" then
    { s with audio := { s.audio with tts_playing := true, mic_muted := true, mode := .SPEAKING } }
  else if msg.type = "tts_finished" then
    { s with audio :=
      { s.audio with
          tts_playing := false
          mic_muted := s.audio.robot_moving || s.audio.buzzer_active
          mode := if s.face_present || wake_active s now then .ENGAGED else .IDLE } }
  else if msg.type = "audio_wake_detected" then
    let s := { s with audio :=
      { s.audio with wake_override_until_monotonic := now + max (1/2 : ℚ) (wakeDuration msg.content) } }
    if s.audio.mode = .IDLE then
      { s with audio := { s.audio with mode := .ENGAGED } }
    else s
  else if msg.type = "motion_state" then
    match asObj msg.content with
    | none => s
    | some fields =>
        let moving := pyTruthy (jsonLookupD fields "moving" (.bool false))
        { s with audio :=
          { s.audio with
              robot_moving := moving
              mic_muted := moving || s.audio.tts_playing || s.audio.buzzer_active } }
  else if msg.type = "buzzer_state" then
    match asObj msg.content with
    | none => s
    | some fields =>
        let active := pyTruthy (jsonLookupD fields "active" (.bool false))
        { s with audio :=
          { s.audio with
              buzzer_active := active
              mic_muted := active || s.audio.tts_playing || s.audio.robot_moving } }
  else s

/-- Replay of a timed event sequence through `apply_message`, starting from a
given store state: each list entry is the monotonic clock at the replay step
together with the bus message. -/
def replay (s : SharedRuntimeState) : List (ℚ × Message) → SharedRuntimeState
  | [] => s
  | (now, msg) :: rest => replay (apply_message s msg now) rest

/-! ## Bus dispatcher (`src/threads/threadManager.py`)

`ThreadManager` holds the registered workers in registration order (a Python
`dict` preserves insertion order) and, in `run`, dequeues one message at a
time and calls `broadcast_message`, which invokes `handle_message` on every
worker with no surrounding `try`.  A worker's `handle_message` either returns
a new private state or raises; `run` catches only `KeyboardInterrupt`. -/

/-- A Python exception escaping a worker's `handle_message`. -/
inductive PyExn where
  | keyboardInterrupt
  | error (text : String)

/-- A registered worker: its `handle_message` body acting on its private
state (raising is modelled by `Except.error`). -/
structure SimWorker (σ : Type) where
  handle : σ → Message → Except PyExn σ
  state : σ

/-- `ThreadManager.broadcast_message`: invoke each worker's `handle_message`
in registration order with no per-worker exception handler — the first raise
leaves that worker and all later workers untouched and propagates out. -/
def broadcast_message (msg : Message) : List (SimWorker σ) → List (SimWorker σ) × Option PyExn
  | [] => ([], none)
  | w :: ws =>
      match w.handle w.state msg with
      | .ok st' =>
          let (ws', e) := broadcast_message msg ws
          ({ w with state := st' } :: ws', e)
      | .error e => (w :: ws, some e)

/-- The `while self.running` body of `ThreadManager.run` iterated over a
queue of pending messages: each dequeued message is fanned out via
`broadcast_message`; any exception ends the loop (only `KeyboardInterrupt`
is caught, and it too stops the manager via `stop_all`).  Returns the final
workers and the messages left undelivered. -/
def dispatcherRun : List (SimWorker σ) → List Message → List (SimWorker σ) × List Message
  | ws, [] => (ws, [])
  | ws, msg :: rest =>
      match broadcast_message msg ws with
      | (ws', none) => dispatcherRun ws' rest
      | (ws', some _) => (ws', rest)

/-- Per-event dispatcher step as the code performs it on a system that also
contains the arbitration store: `ThreadManager` holds no store reference and
`run`/`broadcast_message` never call `apply_message`, so the store component
is untouched. -/
def threadManagerStep (store : SharedRuntimeState) (ws : List (SimWorker σ))
    (msg : Message) (_now : ℚ) : SharedRuntimeState × List (SimWorker σ) × Option PyExn :=
  (store, broadcast_message msg ws)

/-- Modelled from the spec: the dispatcher step of §4.1/§4.2, which first
applies the dequeued event to the Arbitration Store's replay function and
then fans it out to the registered workers.  This wiring is absent from
`src/`: `ThreadManager.__init__` accepts no store even though
`BotApp.__init__` passes one. -/
def dispatchStepSpec (store : SharedRuntimeState) (ws : List (SimWorker σ))
    (msg : Message) (now : ℚ) : SharedRuntimeState × List (SimWorker σ) × Option PyExn :=
  (apply_message store msg now, broadcast_message msg ws)

/-! ## Motion control engine (`src/threads/motion.py`) -/

/-- The logical fields of `MotionControlConfig` (GPIO pin numbers and the
`dry_run` switch select hardware back-ends and carry no control logic). -/
structure MotionControlConfig where
  stepper_steps_per_90deg : ℤ := 50
  stepper_step_delay_s : ℚ := 1/100
  move_duration_s : ℚ := 4/5
  turn_duration_s : ℚ := 3/5
  loop_sleep_s : ℚ := 1/20
  follow_tolerance_cm : ℚ := 3
  follow_pulse_s : ℚ := 1/4
  follow_replan_interval_s : ℚ := 1/4

/-- `ParsedMotionCommand`. -/
structure ParsedMotionCommand where
  action : String
  duration_s : Option ℚ := none
  follow_target_cm : Option ℚ := none
deriving DecidableEq

/-- Python substring test `needle in hay` on character lists. -/
def subList (needle : List Char) : List Char → Bool
  | [] => needle.isEmpty
  | c :: rest => needle.isPrefixOf (c :: rest) || subList needle rest

/-- `tok in cmd` for a literal token. -/
def hasTok (cmd : List Char) (tok : String) : Bool :=
  subList tok.data cmd

def isWordChar (c : Char) : Bool :=
  c.isAlphanum || c = '_'

/-- Greedy `\d+` munch: the maximal digit run and the remainder. -/
def takeDigits (l : List Char) : List Char × List Char :=
  (l.takeWhile isDigitChar, l.dropWhile isDigitChar)

/-- Match `(?P<v>\d+(?:\.\d+)?)` at the head of `l`: the numeric value of the
group and the remainder.  The greedy quantifiers never need to backtrack
against the `\s*`-then-unit continuation, since no digit or dot can begin
it. -/
def matchNumberAt (l : List Char) : Option (ℚ × List Char) :=
  let (intPart, rest) := takeDigits l
  if intPart.isEmpty then none
  else
    match rest with
    | '.' :: rest' =>
        let (fracPart, rest'') := takeDigits rest'
        if fracPart.isEmpty then some ((natOfDigits intPart : ℚ), rest)
        else some (decimalVal intPart fracPart, rest'')
    | _ => some ((natOfDigits intPart : ℚ), rest)

/-- Word-boundary test `\b` between a word character just matched and the
remainder `l`. -/
def atBoundary : List Char → Bool
  | [] => true
  | c :: _ => !isWordChar c

/-- Ordered alternation `(?:u₁|u₂|…)\b`: succeeds iff some alternative, tried
in order, is a prefix of `l` with a word boundary after it. -/
def matchUnit (units : List String) (l : List Char) : Bool :=
  units.any (fun u => u.data.isPrefixOf l && atBoundary (l.drop u.length))

/-- Match the whole pattern `(?P<v>\d+(?:\.\d+)?)\s*(?:units)\b` at the head
of `l`, returning the numeric group. -/
def matchPatternAt (units : List String) (l : List Char) : Option ℚ :=
  match matchNumberAt l with
  | none => none
  | some (v, rest) =>
      if matchUnit units (rest.dropWhile isSpaceChar) then some v else none

/-- `re.search`: leftmost position where the pattern matches. -/
def searchNumUnit (units : List String) : List Char → Option ℚ
  | [] => none
  | c :: rest =>
      match matchPatternAt units (c :: rest) with
      | some v => some v
      | none => searchNumUnit units rest

/-- `_SECONDS_RE` alternatives, in the regex's alternation order. -/
def secondsUnits : List String := ["s", "sec", "secs", "second", "seconds"]

/-- `_extract_seconds` (the `float` of the matched group never raises, the
group being a decimal literal). -/
def _extract_seconds (cmd : List Char) : Option ℚ :=
  (searchNumUnit secondsUnits cmd).map (fun v => max 0 v)

/-- `_extract_distance_cm`: the `cm` pattern first, then the `m` pattern
scaled by 100. -/
def _extract_distance_cm (cmd : List Char) : Option ℚ :=
  match searchNumUnit ["cm"] cmd with
  | some v => some (max 0 v)
  | none => (searchNumUnit ["m"] cmd).map (fun v => max 0 (v * 100))

/-- `parse_motion_command`. -/
def parse_motion_command (command_text : String) : ParsedMotionCommand :=
  let cmd := (stripChars command_text.data).map Char.toLower
  if cmd.isEmpty then { action := "unknown" }
  else
    let duration_s := _extract_seconds cmd
    if hasTok cmd "stop" || hasTok cmd "halt" || hasTok cmd "cancel" || hasTok cmd "freeze" then
      { action := "stop" }
    else if hasTok cmd "follow" then
      { action := "follow", duration_s, follow_target_cm := _extract_distance_cm cmd }
    else
      let stepper_hint := hasTok cmd "stepper" || hasTok cmd "steer" || hasTok cmd "steering"
        || hasTok cmd "head" || hasTok cmd "pan"
      if hasTok cmd "center" && stepper_hint then { action := "stepper_center" }
      else if hasTok cmd "left" then
        if stepper_hint && !(hasTok cmd "turn" || hasTok cmd "move" || hasTok cmd "go"
            || hasTok cmd "rotate") then
          { action := "stepper_left" }
        else { action := "left", duration_s }
      else if hasTok cmd "right" then
        if stepper_hint && !(hasTok cmd "turn" || hasTok cmd "move" || hasTok cmd "go"
            || hasTok cmd "rotate") then
          { action := "stepper_right" }
        else { action := "right", duration_s }
      else if hasTok cmd "backward" || hasTok cmd "back" || hasTok cmd "reverse" then
        { action := "backward", duration_s }
      else if hasTok cmd "forward" || hasTok cmd "ahead" || hasTok cmd "front"
          || hasTok cmd "straight" then
        { action := "forward", duration_s }
      else { action := "unknown" }

/-- An observable actuator/bus effect issued by the motion engine, in issue
order: a stepper burst (`stepper.step(steps, delay)`), a wheels drive call,
or a `motion_state` broadcast. -/
inductive MotionEffect where
  | stepperStep (steps : ℤ) (delay_s : ℚ)
  | wheelsForward
  | wheelsBackward
  | wheelsSpinLeft
  | wheelsSpinRight
  | wheelsStop
  | publishMotionState (moving : Bool)
deriving DecidableEq

/-- The mutable fields of `MotionControlThread` owned by its own thread. -/
structure MotionState where
  latest_distance_cm : Option ℚ := none
  follow_enabled : Bool := false
  follow_target_cm : Option ℚ := none
  last_follow_action_ts : ℚ := 0
  drive_direction : Option String := none
  drive_until : ℚ := 0
  is_moving : Bool := false
  stepper_side : ℤ := 0
deriving DecidableEq

/-- `MotionControlThread._set_motion_state`: broadcast only on edges. -/
def _set_motion_state (st : MotionState) (moving : Bool) : MotionState × List MotionEffect :=
  if moving == st.is_moving then (st, [])
  else ({ st with is_moving := moving }, [.publishMotionState moving])

/-- `MotionControlThread._stop_drive`. -/
def _stop_drive (st : MotionState) : MotionState × List MotionEffect :=
  let (st', effs) := _set_motion_state { st with drive_direction := none, drive_until := 0 } false
  (st', .wheelsStop :: effs)

/-- `MotionControlThread._start_drive`; `time.monotonic()` at the call is the
invoking tick's clock `now`. -/
def _start_drive (st : MotionState) (direction : String) (duration_s : ℚ) (now : ℚ) :
    MotionState × List MotionEffect :=
  let wheelsEff : Option MotionEffect :=
    if direction = "forward" then some .wheelsForward
    else if direction = "backward" then some .wheelsBackward
    else if direction = "left" then some .wheelsSpinLeft
    else if direction = "right" then some .wheelsSpinRight
    else none
  match wheelsEff with
  | none => _stop_drive st
  | some eff =>
      let st := { st with drive_direction := some direction, drive_until := now + max 0 duration_s }
      let (st', effs) := _set_motion_state st true
      (st', eff :: effs)

/-- `MotionControlThread._set_stepper_side`. -/
def _set_stepper_side (cfg : MotionControlConfig) (st : MotionState) (side : ℤ) :
    MotionState × List MotionEffect :=
  let clamped := max (-1) (min 1 side)
  if clamped == st.stepper_side then (st, [])
  else
    let steps_per_side := max 1 cfg.stepper_steps_per_90deg
    let delta_steps := (clamped - st.stepper_side) * steps_per_side
    ({ st with stepper_side := clamped },
     [.stepperStep delta_steps (max 0 cfg.stepper_step_delay_s)])

/-- `MotionControlThread.execute_command_text`. -/
def execute_command_text (cfg : MotionControlConfig) (st : MotionState)
    (command_text : String) (now : ℚ) : MotionState × List MotionEffect :=
  let parsed := parse_motion_command command_text
  if parsed.action = "unknown" then (st, [])
  else if parsed.action = "stop" then
    _stop_drive { st with follow_enabled := false, follow_target_cm := none }
  else if parsed.action = "follow" then
    let (st, effs₁) := _stop_drive st
    let (st, effs₂) := _set_stepper_side cfg st 0
    let st := { st with
      follow_enabled := true
      follow_target_cm :=
        match parsed.follow_target_cm with
        | some t => some t
        | none => st.latest_distance_cm
      last_follow_action_ts := 0 }
    (st, effs₁ ++ effs₂)
  else
    let st := { st with follow_enabled := false, follow_target_cm := none }
    if parsed.action = "stepper_left" then _set_stepper_side cfg st (-1)
    else if parsed.action = "stepper_right" then _set_stepper_side cfg st 1
    else if parsed.action = "stepper_center" then _set_stepper_side cfg st 0
    else if parsed.action = "left" || parsed.action = "right" then
      let (st, effs₁) := _set_stepper_side cfg st (if parsed.action = "left" then -1 else 1)
      let (st, effs₂) := _start_drive st parsed.action
        (parsed.duration_s.getD (max 0 cfg.turn_duration_s)) now
      (st, effs₁ ++ effs₂)
    else if parsed.action = "forward" || parsed.action = "backward" then
      let (st, effs₁) := _set_stepper_side cfg st 0
      let (st, effs₂) := _start_drive st parsed.action
        (parsed.duration_s.getD (max 0 cfg.move_duration_s)) now
      (st, effs₁ ++ effs₂)
    else (st, [])

/-- `MotionControlThread._tick_follow`. -/
def _tick_follow (cfg : MotionControlConfig) (st : MotionState) (now : ℚ) :
    MotionState × List MotionEffect :=
  if !st.follow_enabled || st.drive_direction ≠ none then (st, [])
  else
    match st.follow_target_cm with
    | none =>
        match st.latest_distance_cm with
        | some d => ({ st with follow_target_cm := some d }, [])
        | none => (st, [])
    | some target =>
        match st.latest_distance_cm with
        | none => (st, [])
        | some current =>
            let error_cm := current - target
            let tolerance_cm := max (1/2) cfg.follow_tolerance_cm
            if |error_cm| ≤ tolerance_cm then (st, [])
            else if now - st.last_follow_action_ts < max (1/20) cfg.follow_replan_interval_s then
              (st, [])
            else
              let direction := if error_cm > 0 then "forward" else "backward"
              let (st', effs) := _start_drive st direction (max (1/20) cfg.follow_pulse_s) now
              ({ st' with last_follow_action_ts := now }, effs)

/-- `MotionControlThread._tick`. -/
def _tick (cfg : MotionControlConfig) (st : MotionState) (now : ℚ) :
    MotionState × List MotionEffect :=
  let (st, effs₁) :=
    if st.drive_direction ≠ none && now ≥ st.drive_until then _stop_drive st else (st, [])
  let (st', effs₂) := _tick_follow cfg st now
  (st', effs₁ ++ effs₂)

/-- Net signed stepper steps issued by a trace of effects. -/
def stepsIssued (effs : List MotionEffect) : ℤ :=
  (effs.map (fun e => match e with | .stepperStep n _ => n | _ => 0)).sum

/-- The stepper step-deltas of a trace, in issue order. -/
def steerDeltas (effs : List MotionEffect) : List ℤ :=
  effs.filterMap (fun e => match e with | .stepperStep n _ => some n | _ => none)

/-- The wheel drive calls of a trace, in issue order. -/
def wheelCmds (effs : List MotionEffect) : List MotionEffect :=
  effs.filter (fun e =>
    match e with
    | .wheelsForward | .wheelsBackward | .wheelsSpinLeft | .wheelsSpinRight | .wheelsStop => true
    | _ => false)

/-! ## Concrete example inputs used by witnesses and counterexamples -/

/-- A well-formed `motion_state` event reporting `moving = true`. -/
def motionMovingTrueMsg : Message :=
  ⟨"MotionControlThread", "motion_state", .json (.obj [("moving", .bool true)]), 0⟩

/-- An `audio_wake_detected` event with the given decoded payload. -/
def wakeMsg (c : PContent) : Message :=
  ⟨"STTWorker", "audio_wake_detected", c, 0⟩

/-- A well-formed `tts_started` event. -/
def ttsStartedMsg : Message :=
  ⟨"TTSWorker", "tts_started", .json (.obj []), 0⟩

/-- A worker whose `handle_message` always raises. -/
def failingWorker : SimWorker (List String) :=
  ⟨fun _ _ => .error (.error "boom"), []⟩

/-- A worker whose `handle_message` appends the event tag to its inbox. -/
def recordingWorker : SimWorker (List String) :=
  ⟨fun st m => .ok (st ++ [m.type]), []⟩

/-- Store state after a 0.5 s wake window opened at time 0 followed by a
`motion_state{moving:true}` report. -/
def wakeThenMovingState : SharedRuntimeState :=
  replay initState [(0, wakeMsg (.json (.obj [("duration_s", .num (1/2))]))), (0, motionMovingTrueMsg)]

/-- A follow configuration whose tolerance (0.1 cm) sits below the code's
0.5 cm floor. -/
def cfgSubHalfTol : MotionControlConfig :=
  { follow_tolerance_cm := 1/10 }

/-- Follow-mode engine state: target 100 cm, sensed distance 100.3 cm, no
timed drive, replan interval long since elapsed at time 1. -/
def stSubHalfTol : MotionState :=
  { follow_enabled := true, follow_target_cm := some 100,
    latest_distance_cm := some (100 + 3/10), last_follow_action_ts := 0 }

/-- The default `MotionControlConfig` (all fields at their dataclass defaults). -/
def cfgDefault : MotionControlConfig := {}

/-- Follow-mode engine state with target 100 cm and sensed distance 120 cm. -/
def stFollowForward : MotionState :=
  { follow_enabled := true, follow_target_cm := some 100, latest_distance_cm := some 120 }

/-! # Theorems -/

/-! ## Per-tag unfolding of `apply_message` -/

theorem apply_message_wake (s : SharedRuntimeState) (sender : String) (c : PContent) (t now : ℚ) :
    apply_message s ⟨sender, "audio_wake_detected", c, t⟩ now =
      (let s' := { s with audio :=
        { s.audio with wake_override_until_monotonic := now + max (1/2 : ℚ) (wakeDuration c) } }
      if s'.audio.mode = .IDLE then
        { s' with audio := { s'.audio with mode := .ENGAGED } }
      else s') := rfl

theorem apply_message_llm (s : SharedRuntimeState) (sender : String) (c : PContent) (t now : ℚ) :
    apply_message s ⟨sender, "llm_thinking", c, t⟩ now =
      (match asObj c with
       | none => { s with audio := { s.audio with llm_thinking := false } }
       | some fields =>
          { s with audio :=
            { s.audio with llm_thinking := pyTruthy (jsonLookupD fields "value" (.bool false)) } }) := rfl

theorem apply_message_tts_started (s : SharedRuntimeState) (sender : String) (c : PContent)
    (t now : ℚ) :
    apply_message s ⟨sender, "tts_started", c, t⟩ now =
      { s with audio :=
        { s.audio with tts_playing := true, mic_muted := true, mode := .SPEAKING } } := rfl

theorem apply_message_motion_state (s : SharedRuntimeState) (sender : String) (c : PContent)
    (t now : ℚ) :
    apply_message s ⟨sender, "motion_state", c, t⟩ now =
      (match asObj c with
       | none => s
       | some fields =>
          let moving := pyTruthy (jsonLookupD fields "moving" (.bool false))
          { s with audio :=
            { s.audio with
                robot_moving := moving
                mic_muted := moving || s.audio.tts_playing || s.audio.buzzer_active } }) := rfl

/-! ## C2: busy actuators mute the mic in every reachable state -/

/-- The spec §3 invariant, as an equation the replay maintains: `micMuted`
is exactly the disjunction of the three busy flags. -/
def micInv (s : SharedRuntimeState) : Prop :=
  s.audio.mic_muted = (s.audio.tts_playing || s.audio.robot_moving || s.audio.buzzer_active)

theorem micInv_init : micInv initState := rfl

theorem micInv_step (s : SharedRuntimeState) (msg : Message) (now : ℚ) (h : micInv s) :
    micInv (apply_message s msg now) := by
  obtain ⟨sender, ty, c, t⟩ := msg
  unfold micInv at h ⊢
  unfold apply_message
  dsimp only
  by_cases e1 : ty = "distance_cm"
  case pos =>
    rw [if_pos e1]
    rcases asObj c with _ | fields
    · exact h
    · dsimp only
      rcases jsonLookup fields "value" with _ | v
      · exact h
      · dsimp only; split_ifs <;> exact h
  rw [if_neg e1]
  by_cases e2 : ty = "vision_identity"
  case pos =>
    rw [if_pos e2]
    rcases asObj c with _ | fields
    · exact h
    · dsimp only; split_ifs <;> exact h
  rw [if_neg e2]
  by_cases e3 : ty = "audio_listening_started"
  case pos => rw [if_pos e3]; exact h
  rw [if_neg e3]
  by_cases e4 : ty = "audio_listening_finished"
  case pos => rw [if_pos e4]; exact h
  rw [if_neg e4]
  by_cases e5 : ty = "audio_utterance"
  case pos =>
    rw [if_pos e5]
    rcases asObj c with _ | fields <;> exact h
  rw [if_neg e5]
  by_cases e6 : ty = "stt_text"
  case pos =>
    rw [if_pos e6]
    rcases asObj c with _ | fields <;> exact h
  rw [if_neg e6]
  by_cases e7 : ty = "llm_thinking"
  case pos =>
    rw [if_pos e7]
    rcases asObj c with _ | fields <;> exact h
  rw [if_neg e7]
  by_cases e8 : ty = "agent_reply"
  case pos =>
    rw [if_pos e8]
    rcases asObj c with _ | fields <;> exact h
  rw [if_neg e8]
  by_cases e9 : ty = "tts_started"
  case pos => rw [if_pos e9]; rfl
  rw [if_neg e9]
  by_cases e10 : ty = "tts_finished"
  case pos => rw [if_pos e10]; rfl
  rw [if_neg e10]
  by_cases e11 : ty = "audio_wake_detected"
  case pos =>
    rw [if_pos e11]
    try dsimp only
    split_ifs <;> exact h
  rw [if_neg e11]
  by_cases e12 : ty = "motion_state"
  case pos =>
    rw [if_pos e12]
    rcases asObj c with _ | fields
    · exact h
    · dsimp only
      cases pyTruthy (jsonLookupD fields "moving" (JsonVal.bool false)) <;>
        cases s.audio.tts_playing <;> cases s.audio.buzzer_active <;> rfl
  rw [if_neg e12]
  by_cases e13 : ty = "buzzer_state"
  case pos =>
    rw [if_pos e13]
    rcases asObj c with _ | fields
    · exact h
    · dsimp only
      cases pyTruthy (jsonLookupD fields "active" (JsonVal.bool false)) <;>
        cases s.audio.tts_playing <;> cases s.audio.robot_moving <;> rfl
  rw [if_neg e13]
  exact h

theorem micInv_replay (s : SharedRuntimeState) (evs : List (ℚ × Message)) (h : micInv s) :
    micInv (replay s evs) := by
  induction evs generalizing s with
  | nil => exact h
  | cons ev rest ih => exact ih _ (micInv_step _ _ _ h)

theorem can_open_mic_busy_false (s : SharedRuntimeState) (now : ℚ)
    (h : s.audio.tts_playing = true ∨ s.audio.robot_moving = true ∨ s.audio.buzzer_active = true) :
    (can_open_mic s now).1 = false := by
  unfold can_open_mic
  dsimp only
  rcases h with h | h | h <;> split_ifs <;> simp [h]

/-- C2: in every store state reachable from the initial state by
`apply_message` replay, if any of `tts_playing`, `robot_moving`,
`buzzer_active` is true then `mic_muted` is true and `can_open_mic` returns
false (at every query time). -/
theorem c2_busy_actuator_mutes_and_closes_mic (evs : List (ℚ × Message)) (now : ℚ)
    (h : (replay initState evs).audio.tts_playing = true ∨
         (replay initState evs).audio.robot_moving = true ∨
         (replay initState evs).audio.buzzer_active = true) :
    (replay initState evs).audio.mic_muted = true ∧
      (can_open_mic (replay initState evs) now).1 = false := by
  refine ⟨?_, can_open_mic_busy_false _ _ h⟩
  have hinv := micInv_replay initState evs micInv_init
  unfold micInv at hinv
  rcases h with h | h | h <;> simp [hinv, h]

/-- Witness for C2 at the concrete reachable state after
`motion_state{moving:true}`, queried at time 0. -/
theorem c2_witness :
    ((replay initState [(0, motionMovingTrueMsg)]).audio.robot_moving = true) ∧
      (replay initState [(0, motionMovingTrueMsg)]).audio.mic_muted = true ∧
        (can_open_mic (replay initState [(0, motionMovingTrueMsg)]) 0).1 = false :=
  ⟨rfl, c2_busy_actuator_mutes_and_closes_mic [(0, motionMovingTrueMsg)] 0 (Or.inr (Or.inl rfl))⟩

/-! ## C1: the dispatcher does not replay events into the store -/

/-- C1: the claim says each dequeued event is first applied to the store's
replay function and then fanned out.  In the code, `ThreadManager.run`
dequeues and calls only `broadcast_message` — the store is never touched by
the dispatcher (first conjunct), so on a `tts_started` event the code's step
leaves `tts_playing` false while the spec's dispatcher step (§4.1/§4.2)
sets it true (remaining conjuncts). -/
theorem c1_dispatcher_never_replays_store :
    (∀ (store : SharedRuntimeState) (ws : List (SimWorker Unit)) (msg : Message) (now : ℚ),
        (threadManagerStep store ws msg now).1 = store) ∧
      (threadManagerStep initState ([] : List (SimWorker Unit)) ttsStartedMsg 0).1.audio.tts_playing
          = false ∧
      (dispatchStepSpec initState ([] : List (SimWorker Unit)) ttsStartedMsg 0).1.audio.tts_playing
          = true :=
  ⟨fun _ _ _ _ => rfl, rfl, rfl⟩

/-! ## C3: a raising worker aborts the fan-out -/

/-- C3 counterexample: with a first worker whose `handle_message` raises and
a second that records events, the fan-out leaves the second worker's inbox
empty (it never receives the event), the exception escapes
`broadcast_message` uncaught, and the dispatcher loop exits leaving the next
queued message undelivered — contrary to the claim that the exception is
caught, the remaining workers still receive the event, and the loop
continues. -/
theorem c3_counterexample_fanout_aborts :
    ((broadcast_message motionMovingTrueMsg [failingWorker, recordingWorker]).1.map
        (fun w => w.state)) = [[], []] ∧
      (broadcast_message motionMovingTrueMsg [failingWorker, recordingWorker]).2.isSome = true ∧
      (dispatcherRun [failingWorker, recordingWorker] [motionMovingTrueMsg, ttsStartedMsg]).2
          = [ttsStartedMsg] :=
  ⟨rfl, rfl, rfl⟩

/-- C3 amended: an exception in one worker's `handle_message` is not caught
per worker by the dispatcher: the fan-out stops at the raising worker (it
and all later workers keep their prior state), the exception propagates out
of `broadcast_message`, and the dispatcher loop stops, leaving subsequent
events undelivered. -/
theorem c3_amended_exception_propagates {σ : Type} (w : SimWorker σ) (ws : List (SimWorker σ))
    (msg : Message) (rest : List Message) (e : PyExn)
    (h : w.handle w.state msg = .error e) :
    broadcast_message msg (w :: ws) = (w :: ws, some e) ∧
      dispatcherRun (w :: ws) (msg :: rest) = (w :: ws, rest) := by
  have hb : broadcast_message msg (w :: ws) = (w :: ws, some e) := by
    unfold broadcast_message
    rw [h]
  refine ⟨hb, ?_⟩
  unfold dispatcherRun
  rw [hb]

/-- Witness for the amended C3 at a concrete raising worker. -/
theorem c3_amended_witness :
    failingWorker.handle failingWorker.state motionMovingTrueMsg = .error (.error "boom") ∧
      broadcast_message motionMovingTrueMsg [failingWorker, recordingWorker]
          = ([failingWorker, recordingWorker], some (.error "boom")) ∧
      dispatcherRun [failingWorker, recordingWorker] [motionMovingTrueMsg]
          = ([failingWorker, recordingWorker], []) :=
  ⟨rfl,
    (c3_amended_exception_propagates failingWorker [recordingWorker] motionMovingTrueMsg []
      (.error "boom") rfl).1,
    (c3_amended_exception_propagates failingWorker [recordingWorker] motionMovingTrueMsg []
      (.error "boom") rfl).2⟩

/-! ## C5: wake window opening and expiry -/

theorem wakeDuration_num (d : ℚ) :
    wakeDuration (.json (.obj [("duration_s", .num d)])) = d := rfl

/-- The mic-eligibility query on a state whose wake window has lapsed, with
no face, mode `ENGAGED`, and neither TTS nor the LLM busy: the query
self-corrects the mode to `IDLE` and returns false when additionally no
face or wake grant exists. -/
theorem can_open_mic_expired (s : SharedRuntimeState) (now : ℚ)
    (hwa : ¬ now < s.audio.wake_override_until_monotonic)
    (hf : s.face_present = false) (hmode : s.audio.mode = .ENGAGED)
    (htts : s.audio.tts_playing = false) (hllm : s.audio.llm_thinking = false) :
    (can_open_mic s now).1 = false ∧ (can_open_mic s now).2.audio.mode = .IDLE := by
  unfold can_open_mic wake_active
  dsimp only
  rw [decide_eq_false hwa, hf, hmode, htts, hllm]
  simp

/-- C5: applying `audio_wake_detected{duration_s:d}` sets the wake deadline
to `now + max(0.5, d)` and promotes `IDLE` to `ENGAGED`; and after
`audio_wake_detected{duration_s:0.6}`, querying 0.75 s later with no face
and no busy actuator yields mode `IDLE` and a closed mic. -/
theorem c5_wake_window_and_expiry :
    (∀ (s : SharedRuntimeState) (sender : String) (t now d : ℚ),
        (apply_message s ⟨sender, "audio_wake_detected",
            .json (.obj [("duration_s", .num d)]), t⟩ now).audio.wake_override_until_monotonic
          = now + max (1/2) d ∧
        (s.audio.mode = .IDLE →
          (apply_message s ⟨sender, "audio_wake_detected",
            .json (.obj [("duration_s", .num d)]), t⟩ now).audio.mode = .ENGAGED)) ∧
    (∀ (s : SharedRuntimeState) (sender : String) (t now : ℚ),
        s.face_present = false → s.audio.tts_playing = false →
        s.audio.llm_thinking = false → s.audio.robot_moving = false →
        s.audio.buzzer_active = false →
        (s.audio.mode = .IDLE ∨ s.audio.mode = .ENGAGED) →
        (can_open_mic (apply_message s ⟨sender, "audio_wake_detected",
            .json (.obj [("duration_s", .num (3/5))]), t⟩ now) (now + 3/4)).1 = false ∧
        (can_open_mic (apply_message s ⟨sender, "audio_wake_detected",
            .json (.obj [("duration_s", .num (3/5))]), t⟩ now) (now + 3/4)).2.audio.mode
          = .IDLE) := by
  have hmax : max (1/2 : ℚ) (3/5) = 3/5 := max_eq_right (by norm_num)
  constructor
  · intro s sender t now d
    constructor
    · rw [apply_message_wake]
      dsimp only
      split_ifs <;> simp [wakeDuration_num]
    · intro hm
      rw [apply_message_wake]
      dsimp only
      rw [if_pos hm]
  · intro s sender t now hf htts hllm _hmov _hbuz hmode
    have hwa : ¬ (now + 3/4 < now +
        max (1/2 : ℚ) (wakeDuration (.json (.obj [("duration_s", .num (3/5))])))) := by
      rw [wakeDuration_num, hmax]
      linarith
    rcases hmode with hm | hm
    · rw [apply_message_wake]
      dsimp only
      rw [if_pos hm]
      exact can_open_mic_expired _ _ hwa hf rfl htts hllm
    · have hne : s.audio.mode ≠ AudioMode.IDLE := by rw [hm]; decide
      rw [apply_message_wake]
      dsimp only
      rw [if_neg hne]
      exact can_open_mic_expired _ _ hwa hf hm htts hllm

/-- Witness for C5 from the initial store at time 0. -/
theorem c5_witness :
    (initState.face_present = false ∧ initState.audio.tts_playing = false ∧
        initState.audio.llm_thinking = false ∧ initState.audio.robot_moving = false ∧
        initState.audio.buzzer_active = false ∧ initState.audio.mode = .IDLE) ∧
      (can_open_mic (apply_message initState ⟨"STTWorker", "audio_wake_detected",
          .json (.obj [("duration_s", .num (3/5))]), 0⟩ 0) (0 + 3/4)).1 = false ∧
      (can_open_mic (apply_message initState ⟨"STTWorker", "audio_wake_detected",
          .json (.obj [("duration_s", .num (3/5))]), 0⟩ 0) (0 + 3/4)).2.audio.mode = .IDLE :=
  ⟨⟨rfl, rfl, rfl, rfl, rfl, rfl⟩,
    c5_wake_window_and_expiry.2 initState "STTWorker" 0 0 rfl rfl rfl rfl rfl (Or.inl rfl)⟩

/-! ## C6: what a malformed payload actually does, per tag -/

/-- C6 counterexample: a malformed `audio_wake_detected` payload does not
leave the store unchanged — it opens a default wake window. -/
theorem c6_counterexample_malformed_wake_mutates :
    apply_message initState ⟨"STTWorker", "audio_wake_detected", .malformed, 0⟩ 0 ≠ initState := by
  intro h
  have hwd : wakeDuration PContent.malformed = 10 := rfl
  have hmax : max (1/2 : ℚ) 10 = 10 := max_eq_right (by norm_num)
  have hval : (apply_message initState
      ⟨"STTWorker", "audio_wake_detected", .malformed, 0⟩ 0).audio.wake_override_until_monotonic
        = 10 := by
    rw [apply_message_wake]
    dsimp only
    split_ifs <;> simp only [hwd, hmax, zero_add]
  rw [h] at hval
  have h0 : (0 : ℚ) = 10 := hval
  norm_num at h0

/-- C6 amended: an unparseable payload leaves the store unchanged exactly on
the tags whose handler aborts on a decode failure (`distance_cm`,
`vision_identity`, `audio_utterance`, `stt_text`, `agent_reply`,
`motion_state`, `buzzer_state`); on `llm_thinking` it resets `llm_thinking`
to false, and on `audio_wake_detected` it opens a default 10-second wake
window. -/
theorem c6_amended_malformed_payload_effects :
    (∀ (s : SharedRuntimeState) (msg : Message) (now : ℚ),
        asObj msg.content = none →
        msg.type ∈ ["distance_cm", "vision_identity", "audio_utterance", "stt_text",
          "agent_reply", "motion_state", "buzzer_state"] →
        apply_message s msg now = s) ∧
    (∀ (s : SharedRuntimeState) (sender : String) (t now : ℚ) (c : PContent),
        asObj c = none →
        apply_message s ⟨sender, "llm_thinking", c, t⟩ now
          = { s with audio := { s.audio with llm_thinking := false } }) ∧
    (∀ (s : SharedRuntimeState) (sender : String) (t now : ℚ) (c : PContent),
        asObj c = none →
        (apply_message s ⟨sender, "audio_wake_detected", c, t⟩
            now).audio.wake_override_until_monotonic = now + 10) := by
  refine ⟨?_, ?_, ?_⟩
  · intro s msg now hO hmem
    obtain ⟨sender, ty, c, t⟩ := msg
    simp only [List.mem_cons, List.not_mem_nil, or_false] at hmem
    rcases hmem with rfl | rfl | rfl | rfl | rfl | rfl | rfl <;> simp [apply_message, hO]
  · intro s sender t now c hO
    simp [apply_message, hO]
  · intro s sender t now c hO
    have hwd : wakeDuration c = 10 := by simp [wakeDuration, hO]
    have hmax : max (1/2 : ℚ) 10 = 10 := max_eq_right (by norm_num)
    rw [apply_message_wake]
    dsimp only
    split_ifs <;> simp only [hwd, hmax]

/-- Witness for the amended C6 on a malformed `distance_cm` payload. -/
theorem c6_amended_witness :
    (asObj PContent.malformed = none ∧
        "distance_cm" ∈ ["distance_cm", "vision_identity", "audio_utterance", "stt_text",
          "agent_reply", "motion_state", "buzzer_state"]) ∧
      apply_message initState ⟨"UltrasonicFront", "distance_cm", .malformed, 0⟩ 0 = initState :=
  ⟨⟨rfl, by decide⟩,
    c6_amended_malformed_payload_effects.1 initState
      ⟨"UltrasonicFront", "distance_cm", .malformed, 0⟩ 0 rfl (by decide)⟩

/-! ## C7: the self-correcting demotion's exact condition -/

/-- C7 counterexample: from the reachable state after a lapsed 0.5 s wake
window and `motion_state{moving:true}`, the motion actuator is busy, yet
`can_open_mic` still demotes the mode from `ENGAGED` to `IDLE` — contrary
to the claim that demotion happens only when no actuator (tts, motion,
buzzer) is busy, with the mode otherwise left unchanged. -/
theorem c7_counterexample_demotes_while_moving :
    wakeThenMovingState.audio.robot_moving = true ∧
      wakeThenMovingState.audio.mode = .ENGAGED ∧
      wake_active wakeThenMovingState 1 = false ∧
      (can_open_mic wakeThenMovingState 1).2.audio.mode = .IDLE := by
  have hwk : wakeThenMovingState.audio.wake_override_until_monotonic
      = 0 + max (1/2 : ℚ) (1/2) := rfl
  have hlt : ¬ (1 : ℚ) < wakeThenMovingState.audio.wake_override_until_monotonic := by
    rw [hwk, max_self]
    norm_num
  refine ⟨rfl, rfl, ?_, ?_⟩
  · unfold wake_active
    exact decide_eq_false hlt
  · exact (can_open_mic_expired wakeThenMovingState 1 hlt rfl rfl rfl rfl).2

/-- C7 amended: the self-correcting step demotes the mode (to `IDLE`)
exactly when the wake window has lapsed, no face is present, the mode is
`ENGAGED`, and neither `tts_playing` nor `llm_thinking` is set; the busy
flags `robot_moving` and `buzzer_active` are not consulted. -/
theorem c7_amended_demotion_characterization (s : SharedRuntimeState) (now : ℚ) :
    (((can_open_mic s now).2.audio.mode ≠ s.audio.mode) ↔
      (wake_active s now = false ∧ s.face_present = false ∧ s.audio.mode = .ENGAGED ∧
        s.audio.tts_playing = false ∧ s.audio.llm_thinking = false)) ∧
    ((can_open_mic s now).2.audio.mode = s.audio.mode ∨
      (can_open_mic s now).2.audio.mode = .IDLE) := by
  unfold can_open_mic
  dsimp only
  split_ifs with hc
  · simp only [Bool.and_eq_true, Bool.not_eq_true', beq_iff_eq] at hc
    obtain ⟨⟨⟨⟨hw, hfp⟩, hmo⟩, ht⟩, hl⟩ := hc
    refine ⟨⟨fun _ => ⟨hw, hfp, hmo, ht, hl⟩, fun _ => ?_⟩, Or.inr rfl⟩
    intro hh
    rw [hmo] at hh
    exact AudioMode.noConfusion hh
  · refine ⟨⟨fun hne => absurd rfl hne, fun hcnd => ?_⟩, Or.inl rfl⟩
    have hcond : (!wake_active s now && !s.face_present
        && (s.audio.mode == AudioMode.ENGAGED) && !s.audio.tts_playing
        && !s.audio.llm_thinking) = true := by
      simp only [Bool.and_eq_true, Bool.not_eq_true', beq_iff_eq]
      exact ⟨⟨⟨⟨hcnd.1, hcnd.2.1⟩, hcnd.2.2.1⟩, hcnd.2.2.2.1⟩, hcnd.2.2.2.2⟩
    exact absurd hcond hc

/-- Witness for the amended C7: at the reachable state with a lapsed wake
window, no face, mode `ENGAGED`, TTS idle and LLM idle, the
characterization's condition holds, so the query changes the mode. -/
theorem c7_amended_witness :
    (can_open_mic wakeThenMovingState 1).2.audio.mode ≠ wakeThenMovingState.audio.mode :=
  (c7_amended_demotion_characterization wakeThenMovingState 1).1.mpr
    ⟨by
      unfold wake_active
      refine decide_eq_false ?_
      rw [show wakeThenMovingState.audio.wake_override_until_monotonic
          = 0 + max (1/2 : ℚ) (1/2) from rfl, max_self]
      norm_num, rfl, rfl, rfl, rfl⟩

/-! ## C10: malformed wake payloads still open a default window -/

/-- C10: an `audio_wake_detected` event whose payload fails to decode as
JSON, or whose `duration_s` field is not convertible to a number, is not
discarded: the wake deadline becomes `now + 10` and `IDLE` is promoted to
`ENGAGED`. -/
theorem c10_malformed_wake_defaults (s : SharedRuntimeState) (sender : String) (t now : ℚ)
    (c : PContent)
    (h : c = .malformed ∨ ∃ fields v, asObj c = some fields ∧
        jsonLookup fields "duration_s" = some v ∧ pyFloat v = none) :
    (apply_message s ⟨sender, "audio_wake_detected", c, t⟩
        now).audio.wake_override_until_monotonic = now + 10 ∧
      (s.audio.mode = .IDLE →
        (apply_message s ⟨sender, "audio_wake_detected", c, t⟩ now).audio.mode = .ENGAGED) := by
  have hwd : wakeDuration c = 10 := by
    rcases h with rfl | ⟨fields, v, hA, hL, hF⟩
    · rfl
    · simp [wakeDuration, hA, hL, hF]
  have hmax : max (1/2 : ℚ) 10 = 10 := max_eq_right (by norm_num)
  constructor
  · rw [apply_message_wake]
    dsimp only
    split_ifs <;> simp only [hwd, hmax]
  · intro hm
    rw [apply_message_wake]
    dsimp only
    rw [if_pos hm]

/-- Witness for C10 at a malformed payload over the initial store. -/
theorem c10_witness :
    (PContent.malformed = PContent.malformed ∨ ∃ fields v, asObj PContent.malformed = some fields ∧
        jsonLookup fields "duration_s" = some v ∧ pyFloat v = none) ∧
      (apply_message initState ⟨"STTWorker", "audio_wake_detected", .malformed, 0⟩
          0).audio.wake_override_until_monotonic = 0 + 10 ∧
        (initState.audio.mode = .IDLE →
          (apply_message initState ⟨"STTWorker", "audio_wake_detected", .malformed, 0⟩
            0).audio.mode = .ENGAGED) :=
  ⟨Or.inl rfl, c10_malformed_wake_defaults initState "STTWorker" 0 0 .malformed (Or.inl rfl)⟩

/-! ## C4, C8, C9: motion engine theorems -/

/-- A follow tick inside the effective dead band does nothing. -/
theorem tick_follow_no_pulse (cfg : MotionControlConfig) (st : MotionState) (now d target : ℚ)
    (hen : st.follow_enabled = true) (hdr : st.drive_direction = none)
    (htg : st.follow_target_cm = some target) (hd : st.latest_distance_cm = some d)
    (habs : |d - target| ≤ max (1/2) cfg.follow_tolerance_cm) :
    _tick_follow cfg st now = (st, []) := by
  unfold _tick_follow
  simp only [hen, hdr, htg, hd]
  rw [if_neg (by simp)]
  rw [if_pos habs]

/-- C8: a steering move to a commanded side (clamped to -1/0/+1) issues
exactly `(newSide - oldSide) * stepsPerSide` physical stepper steps (when
the configured step count is at least 1); in particular, issuing `left`
twice from center yields one step burst of `-stepsPerSide` and then zero
steps. -/
theorem c8_steering_quantized (cfg : MotionControlConfig)
    (h : 1 ≤ cfg.stepper_steps_per_90deg) :
    (∀ (st : MotionState) (side : ℤ),
        stepsIssued (_set_stepper_side cfg st side).2
          = (max (-1) (min 1 side) - st.stepper_side) * cfg.stepper_steps_per_90deg) ∧
    (∀ st : MotionState, st.stepper_side = 0 →
        steerDeltas (_set_stepper_side cfg st (-1)).2 = [-cfg.stepper_steps_per_90deg] ∧
        steerDeltas (_set_stepper_side cfg (_set_stepper_side cfg st (-1)).1 (-1)).2 = []) := by
  have hmax : max 1 cfg.stepper_steps_per_90deg = cfg.stepper_steps_per_90deg := max_eq_right h
  constructor
  · intro st side
    unfold _set_stepper_side
    dsimp only
    split_ifs with hc
    · rw [beq_iff_eq] at hc
      rw [hc]
      simp [stepsIssued]
    · simp [stepsIssued, hmax]
  · intro st h0
    have hc1 : ¬ ((max (-1) (min 1 (-1 : ℤ)) == st.stepper_side) = true) := by
      rw [h0]; decide
    constructor
    · unfold _set_stepper_side
      dsimp only
      rw [if_neg hc1]
      simp [steerDeltas, hmax, h0]
    · unfold _set_stepper_side
      dsimp only
      rw [if_neg hc1]
      dsimp only
      rw [if_pos (by decide)]
      rfl

/-- Witness for C8 at the default configuration (50 steps per side). -/
theorem c8_witness :
    (1 ≤ (({} : MotionControlConfig)).stepper_steps_per_90deg) ∧
      stepsIssued (_set_stepper_side {} {} (-1)).2
        = (max (-1) (min 1 (-1 : ℤ)) - ({} : MotionState).stepper_side)
            * ({} : MotionControlConfig).stepper_steps_per_90deg ∧
      steerDeltas (_set_stepper_side {} {} (-1)).2
        = [-({} : MotionControlConfig).stepper_steps_per_90deg] ∧
      steerDeltas (_set_stepper_side {}
          (_set_stepper_side {} ({} : MotionState) (-1)).1 (-1)).2 = [] :=
  ⟨by decide,
    (c8_steering_quantized {} (by decide)).1 {} (-1),
    ((c8_steering_quantized {} (by decide)).2 {} rfl).1,
    ((c8_steering_quantized {} (by decide)).2 {} rfl).2⟩


/-- C4 amended: with follow enabled, no timed drive, target and distance
known, and the effective replan interval `max(0.05, replan)` elapsed, a
follow tick issues a forward pulse iff the error exceeds the effective
tolerance `max(0.5, tolerance)`, a backward pulse iff it is below its
negation, and nothing iff the error's magnitude is within it. -/
theorem c4_amended_deadband_trichotomy (cfg : MotionControlConfig) (st : MotionState)
    (now d target : ℚ)
    (hen : st.follow_enabled = true) (hdr : st.drive_direction = none)
    (htg : st.follow_target_cm = some target) (hd : st.latest_distance_cm = some d)
    (hrp : max (1/20) cfg.follow_replan_interval_s ≤ now - st.last_follow_action_ts) :
    (max (1/2) cfg.follow_tolerance_cm < d - target →
      (_tick_follow cfg st now).1.drive_direction = some "forward" ∧
        wheelCmds (_tick_follow cfg st now).2 = [.wheelsForward] ∧
        (_tick_follow cfg st now).1.drive_until = now + max (1/20) cfg.follow_pulse_s ∧
        (_tick_follow cfg st now).1.last_follow_action_ts = now) ∧
    (d - target < -(max (1/2) cfg.follow_tolerance_cm) →
      (_tick_follow cfg st now).1.drive_direction = some "backward" ∧
        wheelCmds (_tick_follow cfg st now).2 = [.wheelsBackward] ∧
        (_tick_follow cfg st now).1.drive_until = now + max (1/20) cfg.follow_pulse_s ∧
        (_tick_follow cfg st now).1.last_follow_action_ts = now) ∧
    (|d - target| ≤ max (1/2) cfg.follow_tolerance_cm →
      _tick_follow cfg st now = (st, [])) := by
  have htol : (0 : ℚ) < max (1/2) cfg.follow_tolerance_cm :=
    lt_of_lt_of_le (by norm_num) (le_max_left _ _)
  have hpul : max (0 : ℚ) (max (1/20) cfg.follow_pulse_s) = max (1/20) cfg.follow_pulse_s :=
    max_eq_right (le_trans (by norm_num) (le_max_left _ _))
  have hnr : ¬ (now - st.last_follow_action_ts < max (1/20) cfg.follow_replan_interval_s) :=
    not_lt.mpr hrp
  refine ⟨?_, ?_, fun habs => tick_follow_no_pulse cfg st now d target hen hdr htg hd habs⟩
  · intro h1
    have hne : ¬ (|d - target| ≤ max (1/2) cfg.follow_tolerance_cm) :=
      not_le.mpr (lt_of_lt_of_le h1 (le_abs_self _))
    have hpos : (0 : ℚ) < d - target := lt_trans htol h1
    unfold _tick_follow
    simp only [hen, hdr, htg, hd]
    rw [if_neg (by simp)]
    rw [if_neg hne, if_neg hnr, if_pos hpos]
    unfold _start_drive _set_motion_state
    dsimp only
    rw [if_pos rfl]
    split_ifs <;> simp [wheelCmds, hpul]
  · intro h2
    have hne : ¬ (|d - target| ≤ max (1/2) cfg.follow_tolerance_cm) := by
      rw [not_le]
      calc max (1/2) cfg.follow_tolerance_cm < -(d - target) := by linarith
        _ ≤ |d - target| := neg_le_abs _
    have hneg : ¬ ((0 : ℚ) < d - target) := by
      rw [not_lt]
      linarith
    unfold _tick_follow
    simp only [hen, hdr, htg, hd]
    rw [if_neg (by simp)]
    rw [if_neg hne, if_neg hnr, if_neg hneg]
    unfold _start_drive _set_motion_state
    dsimp only
    rw [if_neg (by decide), if_pos rfl]
    split_ifs <;> simp [wheelCmds, hpul]

/-- C4 counterexample: with a configured tolerance of 0.1 cm and an error
of 0.3 cm (> tolerance), all of the claim's preconditions hold, yet the
tick issues no pulse — the code clamps the tolerance up to 0.5 cm. -/
theorem c4_counterexample_subhalf_tolerance :
    stSubHalfTol.follow_enabled = true ∧
      stSubHalfTol.drive_direction = none ∧
      stSubHalfTol.follow_target_cm = some 100 ∧
      stSubHalfTol.latest_distance_cm = some (100 + 3/10) ∧
      max (1/20) cfgSubHalfTol.follow_replan_interval_s ≤ (1 : ℚ) - stSubHalfTol.last_follow_action_ts ∧
      cfgSubHalfTol.follow_tolerance_cm < (100 + 3/10 : ℚ) - 100 ∧
      _tick_follow cfgSubHalfTol stSubHalfTol 1 = (stSubHalfTol, []) := by
  refine ⟨rfl, rfl, rfl, rfl, ?_, ?_, ?_⟩
  · show max (1/20 : ℚ) (1/4) ≤ 1 - 0
    rw [max_eq_right (by norm_num)]
    norm_num
  · show (1/10 : ℚ) < (100 + 3/10 : ℚ) - 100
    norm_num
  · refine tick_follow_no_pulse cfgSubHalfTol stSubHalfTol 1 (100 + 3/10) 100 rfl rfl rfl rfl ?_
    show |(100 + 3/10 : ℚ) - 100| ≤ max (1/2 : ℚ) (1/10)
    rw [max_eq_left (by norm_num)]
    rw [show (100 + 3/10 : ℚ) - 100 = 3/10 by norm_num]
    rw [abs_of_pos (by norm_num)]
    norm_num

/-- Witness for the amended C4: default config, target 100, distance 120
at time 1 issues a forward pulse. -/
theorem c4_amended_witness :
    (stFollowForward.follow_enabled = true ∧
      max (1/20 : ℚ) cfgDefault.follow_replan_interval_s ≤ (1 : ℚ) - 0 ∧
      max (1/2 : ℚ) cfgDefault.follow_tolerance_cm < (120 : ℚ) - 100) ∧
      (_tick_follow cfgDefault stFollowForward 1).1.drive_direction = some "forward" ∧
      wheelCmds (_tick_follow cfgDefault stFollowForward 1).2 = [.wheelsForward] ∧
      (_tick_follow cfgDefault stFollowForward 1).1.drive_until
        = 1 + max (1/20 : ℚ) cfgDefault.follow_pulse_s ∧
      (_tick_follow cfgDefault stFollowForward 1).1.last_follow_action_ts = 1 := by
  have hrp : max (1/20 : ℚ) cfgDefault.follow_replan_interval_s ≤ (1 : ℚ) - 0 := by
    show max (1/20 : ℚ) (1/4) ≤ 1 - 0
    rw [max_eq_right (by norm_num)]
    norm_num
  have htol : max (1/2 : ℚ) cfgDefault.follow_tolerance_cm < (120 : ℚ) - 100 := by
    show max (1/2 : ℚ) 3 < 120 - 100
    rw [max_eq_right (by norm_num)]
    norm_num
  exact ⟨⟨rfl, hrp, htol⟩,
    (c4_amended_deadband_trichotomy cfgDefault stFollowForward 1 120 100 rfl rfl rfl rfl hrp).1 htol⟩


/-- Parsing the free-text command "right". -/
theorem parse_right : parse_motion_command "right" = { action := "right" } := by decide

/-- Parsing the free-text command "go straight now" (the `straight` token
maps it to a forward drive). -/
theorem parse_go_straight_now :
    parse_motion_command "go straight now" = { action := "forward" } := by decide


/-- Executing "right" from the initial motion state: steer to +1, then a
spin-right timed drive, with a moving edge broadcast. -/
theorem exec_right_eq (cfg : MotionControlConfig) (t1 : ℚ) :
    execute_command_text cfg {} "right" t1 =
      ({ latest_distance_cm := none, follow_enabled := false, follow_target_cm := none,
          last_follow_action_ts := 0, drive_direction := some "right",
          drive_until := t1 + max 0 (max 0 cfg.turn_duration_s), is_moving := true,
          stepper_side := max (-1) (min 1 1) },
        [.stepperStep ((max (-1) (min 1 1) - 0) * max 1 cfg.stepper_steps_per_90deg)
            (max 0 cfg.stepper_step_delay_s),
          .wheelsSpinRight, .publishMotionState true]) := rfl


/-- Recentering the steering: explicit state/trace form of
`_set_stepper_side cfg st 0`. -/
theorem set_stepper_side_zero (cfg : MotionControlConfig) (st : MotionState) :
    _set_stepper_side cfg st 0
      = ({ st with stepper_side := 0 },
         if st.stepper_side = 0 then [] else
           [.stepperStep ((0 - st.stepper_side) * max 1 cfg.stepper_steps_per_90deg)
             (max 0 cfg.stepper_step_delay_s)]) := by
  have h00 : max (-1) (min 1 (0 : ℤ)) = 0 := by decide
  obtain ⟨a, b, c, d, e, f, g, i⟩ := st
  unfold _set_stepper_side
  dsimp only
  rw [h00]
  by_cases hss : i = 0
  · subst hss
    rw [if_pos (by decide), if_pos rfl]
  · rw [if_neg (fun hcc => hss (by rw [beq_iff_eq] at hcc; exact hcc.symm)), if_neg hss]

/-- Explicit state/trace form of `_start_drive` for a straight direction. -/
theorem start_drive_straight (st : MotionState) (dir : String) (dur now : ℚ)
    (hdir : dir = "forward" ∨ dir = "backward") :
    _start_drive st dir dur now
      = ({ st with
            drive_direction := some dir
            drive_until := now + max 0 dur
            is_moving := true },
         (if dir = "forward" then MotionEffect.wheelsForward else MotionEffect.wheelsBackward)
           :: (if st.is_moving then [] else [.publishMotionState true])) := by
  obtain ⟨a, b, c, d, e, f, g, i⟩ := st
  rcases hdir with rfl | rfl <;> cases g <;> rfl


/-- Executing "go straight now" after "right": recenter from +1, then a
forward drive (no moving edge — already moving). -/
theorem exec_straight_after_right_eq (cfg : MotionControlConfig) (t1 t2 : ℚ) :
    execute_command_text cfg (execute_command_text cfg {} "right" t1).1 "go straight now" t2 =
      ({ latest_distance_cm := none, follow_enabled := false, follow_target_cm := none,
          last_follow_action_ts := 0, drive_direction := some "forward",
          drive_until := t2 + max 0 (max 0 cfg.move_duration_s), is_moving := true,
          stepper_side := max (-1) (min 1 0) },
        [.stepperStep ((max (-1) (min 1 0) - max (-1) (min 1 1)) * max 1 cfg.stepper_steps_per_90deg)
            (max 0 cfg.stepper_step_delay_s),
          .wheelsForward]) := rfl

/-- C9: any command parsed as `forward`/`backward` first recenters the
steering to side 0 (the step burst, if any, precedes the wheels-on effect
in the issued trace) and then starts the straight drive; and the scenario
"right" then "go straight now" from the initial state produces steer deltas
`[+stepsPerSide, -stepsPerSide]` and a final forward drive. -/
theorem c9_straight_recenters_first (cfg : MotionControlConfig) :
    (∀ (st : MotionState) (now : ℚ) (text : String),
      ((parse_motion_command text).action = "forward" ∨
        (parse_motion_command text).action = "backward") →
      (execute_command_text cfg st text now).1.stepper_side = 0 ∧
      (execute_command_text cfg st text now).1.drive_direction
          = some (parse_motion_command text).action ∧
      (execute_command_text cfg st text now).2
        = (if st.stepper_side = 0 then [] else
            [.stepperStep ((0 - st.stepper_side) * max 1 cfg.stepper_steps_per_90deg)
              (max 0 cfg.stepper_step_delay_s)])
          ++ ((if (parse_motion_command text).action = "forward" then MotionEffect.wheelsForward
                else MotionEffect.wheelsBackward)
            :: (if st.is_moving then [] else [.publishMotionState true]))) ∧
    (1 ≤ cfg.stepper_steps_per_90deg →
      ∀ t1 t2 : ℚ,
        steerDeltas ((execute_command_text cfg {} "right" t1).2
            ++ (execute_command_text cfg (execute_command_text cfg {} "right" t1).1
                "go straight now" t2).2)
          = [cfg.stepper_steps_per_90deg, -cfg.stepper_steps_per_90deg] ∧
        (execute_command_text cfg (execute_command_text cfg {} "right" t1).1
            "go straight now" t2).1.drive_direction = some "forward") := by
  constructor
  · intro st now text hact
    have hexec : execute_command_text cfg st text now =
        ({ st with
            follow_enabled := false
            follow_target_cm := none
            drive_direction := some (parse_motion_command text).action
            drive_until := now + max 0
              ((parse_motion_command text).duration_s.getD (max 0 cfg.move_duration_s))
            is_moving := true
            stepper_side := 0 },
          (if st.stepper_side = 0 then [] else
            [.stepperStep ((0 - st.stepper_side) * max 1 cfg.stepper_steps_per_90deg)
              (max 0 cfg.stepper_step_delay_s)])
            ++ ((if (parse_motion_command text).action = "forward" then
                  MotionEffect.wheelsForward
                else MotionEffect.wheelsBackward)
              :: (if st.is_moving then [] else [.publishMotionState true]))) := by
      rcases hact with ha | ha
      · unfold execute_command_text
        dsimp only
        simp only [ha]
        rw [if_neg (show ¬ ("forward" : String) = "unknown" by decide)]
        rw [if_neg (show ¬ ("forward" : String) = "stop" by decide)]
        rw [if_neg (show ¬ ("forward" : String) = "follow" by decide)]
        rw [if_neg (show ¬ ("forward" : String) = "stepper_left" by decide)]
        rw [if_neg (show ¬ ("forward" : String) = "stepper_right" by decide)]
        rw [if_neg (show ¬ ("forward" : String) = "stepper_center" by decide)]
        rw [if_neg (show ¬ ((("forward" : String) = "left" || ("forward" : String) = "right") = true) by decide)]
        rw [if_pos (show ((decide True || decide (("forward" : String) = "backward")) = true) by decide)]
        rw [set_stepper_side_zero]
        dsimp only
        rw [start_drive_straight _ "forward" _ now (Or.inl rfl)]
        all_goals rfl
      · unfold execute_command_text
        dsimp only
        simp only [ha]
        rw [if_neg (show ¬ ("backward" : String) = "unknown" by decide)]
        rw [if_neg (show ¬ ("backward" : String) = "stop" by decide)]
        rw [if_neg (show ¬ ("backward" : String) = "follow" by decide)]
        rw [if_neg (show ¬ ("backward" : String) = "stepper_left" by decide)]
        rw [if_neg (show ¬ ("backward" : String) = "stepper_right" by decide)]
        rw [if_neg (show ¬ ("backward" : String) = "stepper_center" by decide)]
        rw [if_neg (show ¬ ((("backward" : String) = "left" || ("backward" : String) = "right") = true) by decide)]
        rw [if_pos (show ((decide (("backward" : String) = "forward") || decide True) = true) by decide)]
        rw [set_stepper_side_zero]
        dsimp only
        rw [start_drive_straight _ "backward" _ now (Or.inr rfl)]
    rw [hexec]
    exact ⟨rfl, rfl, rfl⟩
  · intro hspc t1 t2
    have hmax : max 1 cfg.stepper_steps_per_90deg = cfg.stepper_steps_per_90deg :=
      max_eq_right hspc
    have hm1 : max (-1) (min 1 (1 : ℤ)) = 1 := by decide
    have hm0 : max (-1) (min 1 (0 : ℤ)) = 0 := by decide
    rw [exec_straight_after_right_eq, exec_right_eq]
    refine ⟨?_, rfl⟩
    simp only [steerDeltas, List.filterMap_append, List.filterMap_cons, List.filterMap_nil]
    rw [hm1, hm0, hmax]
    simp only [List.cons_append, List.nil_append, List.cons.injEq, and_true]
    constructor
    · omega
    · omega



/-- Witness for C9 at the default configuration, commands issued at times 0
and 1. -/
theorem c9_witness :
    (1 ≤ cfgDefault.stepper_steps_per_90deg) ∧
      steerDeltas ((execute_command_text cfgDefault {} "right" 0).2
          ++ (execute_command_text cfgDefault (execute_command_text cfgDefault {} "right" 0).1
              "go straight now" 1).2)
        = [cfgDefault.stepper_steps_per_90deg, -cfgDefault.stepper_steps_per_90deg] ∧
      (execute_command_text cfgDefault (execute_command_text cfgDefault {} "right" 0).1
          "go straight now" 1).1.drive_direction = some "forward" :=
  ⟨by decide, ((c9_straight_recenters_first cfgDefault).2 (by decide) 0 1).1,
    ((c9_straight_recenters_first cfgDefault).2 (by decide) 0 1).2⟩

end Botronka
